import Mathlib

/-!
Verification of the two vendored libc headers of this repository:
src/lib/libc/include/any-macos-any/assert.h and
src/lib/libc/include/generic-netbsd/fts.h.

The assert header is embedded as a function from the relevant preprocessor
environment (whether NDEBUG, GNUC, DARWIN_UNIX03 and FILE_NAME are defined)
to the selected definition body, together with an operational semantics of
one use of the definition on a side-effecting C expression.  The fts header
is embedded as its numeric constants, its struct field lists over a small
C-type syntax, and its five function prototypes.
-/

/-- The compiler-provided preprocessor environment that assert.h branches on:
whether GNUC is defined (line 66/71), whether DARWIN_UNIX03 is nonzero
(line 73), and whether FILE_NAME is defined (lines 60-64).  These are fixed
by the compiler for a whole translation unit; only NDEBUG is user-toggled
between inclusions, so NDEBUG is passed separately. -/
structure CompilerEnv where
  gnuc : Bool
  darwinUnix03 : Bool
  fileNameDefined : Bool
deriving DecidableEq

/-- A source location at a use site of the assert definition: the FILE and
FILE_NAME strings, the LINE number and the enclosing function name. -/
structure SourceLoc where
  file : String
  fileNameStr : String
  line : Nat
  func : String
deriving DecidableEq

/-- Lines 60-64 of assert.h: ASSERT_FILE_NAME is FILE_NAME when that is
defined and FILE otherwise. -/
def assertFileName (env : CompilerEnv) (loc : SourceLoc) : String :=
  if env.fileNameDefined then loc.fileNameStr else loc.file

/-- The data passed to the process-terminating failure routine: the
stringized source text of the asserted expression, the file name, the line
number, and (for the assert_rtn variant of line 74-75 only) the enclosing
function name. -/
structure AssertFailure where
  func : Option String
  file : String
  line : Nat
  expr : String
deriving DecidableEq

/-- Outcome of executing one use of the assert definition: either control
continues normally with the resulting program state (a void result), or the
process terminates via the failure routine carrying an AssertFailure. -/
inductive AssertResult (σ : Type) where
  | ok : σ → AssertResult σ
  | fail : AssertFailure → σ → AssertResult σ
deriving DecidableEq

/-- The possible replacement bodies that assert.h lines 54-82 can select for
the name assert. -/
inductive AssertDef where
  | noop
  | checkPlain
  | checkGnu
  | checkDarwin
deriving DecidableEq

/-- Lines 54-82 of assert.h: which body is selected for a given NDEBUG
setting and compiler environment.  NDEBUG picks the no-op body ((void)0)
of line 55; otherwise line 68-69 (plain), line 77-78 (GNUC) or line 74-75
(GNUC with DARWIN_UNIX03) is chosen. -/
def assertDefFor (ndebug : Bool) (env : CompilerEnv) : AssertDef :=
  if ndebug then .noop
  else if env.gnuc then
    (if env.darwinUnix03 then .checkDarwin else .checkGnu)
  else .checkPlain

/-- One inclusion of assert.h, acting on the current definition state of the
name assert (none when assert is not defined).  Line 52 first removes any
previous definition with an undef, and the file has no include guard, so the
conditional definition of lines 54-82 always runs and the result does not
depend on the incoming state. -/
def includeAssertH (env : CompilerEnv) (ndebug : Bool)
    (_st : Option AssertDef) : Option AssertDef :=
  some (assertDefFor ndebug env)

/-- A sequence of inclusions of assert.h, each with its own NDEBUG setting,
starting from a definition state. -/
def includeSeq (env : CompilerEnv) (st : Option AssertDef)
    (incs : List Bool) : Option AssertDef :=
  incs.foldl (fun a nd => includeAssertH env nd a) st

/-- Operational semantics of one use of the enabled assert bodies, and of
the no-op body, on a C expression modelled as a state transformer returning
an int (truth is nonzero).  With NDEBUG the body is ((void)0): the state is
returned untouched and the expression is not consulted.  Otherwise all three
enabled bodies (lines 68-69, 74-75, 77-78) evaluate the expression once; a
nonzero value yields a void result, a zero value invokes the failure routine
with the stringized expression text, ASSERT_FILE_NAME and LINE, plus the
function name in the DARWIN_UNIX03 GNUC body. -/
def assertRun {σ : Type} (ndebug : Bool) (env : CompilerEnv) (loc : SourceLoc)
    (etext : String) (e : σ → σ × Int) (s : σ) : AssertResult σ :=
  if ndebug then .ok s
  else if (e s).2 = 0 then
    .fail
      { func := if env.gnuc && env.darwinUnix03 then some loc.func else none
        file := assertFileName env loc
        line := loc.line
        expr := etext }
      (e s).1
  else .ok (e s).1

/-- Instrumentation wrapper counting how many times an expression is
evaluated: the state is paired with a counter that each evaluation
increments. -/
def counting {σ : Type} (e : σ → σ × Int) : σ × Nat → (σ × Nat) × Int :=
  fun p => (((e p.1).1, p.2 + 1), (e p.1).2)

/-- Claim C1: with diagnostics enabled (NDEBUG not defined), an assert whose
expression evaluates to false (zero) invokes the process-terminating failure
routine, passing it the stringized source text of the expression, the file
name and the line number. -/
theorem assert_false_invokes_failure {σ : Type} (env : CompilerEnv)
    (loc : SourceLoc) (etext : String) (e : σ → σ × Int) (s : σ)
    (h : (e s).2 = 0) :
    ∃ f s2, assertRun false env loc etext e s = .fail f s2 ∧
      f.expr = etext ∧ f.file = assertFileName env loc ∧ f.line = loc.line := by
  refine ⟨{ func := if env.gnuc && env.darwinUnix03 then some loc.func else none
            file := assertFileName env loc
            line := loc.line
            expr := etext }, (e s).1, ?_, rfl, rfl, rfl⟩
  simp [assertRun, h]

/-- Witness for C1 at a concrete false expression. -/
theorem assert_false_invokes_failure_witness :
    ∃ f s2,
      assertRun false ⟨true, true, false⟩ ⟨"a.c", "a", 7, "main"⟩ "x == 1"
        (fun s : Nat => (s + 1, 0)) 0 = .fail f s2 ∧
      f.expr = "x == 1" ∧
      f.file = assertFileName ⟨true, true, false⟩ ⟨"a.c", "a", 7, "main"⟩ ∧
      f.line = 7 :=
  assert_false_invokes_failure ⟨true, true, false⟩ ⟨"a.c", "a", 7, "main"⟩
    "x == 1" (fun s : Nat => (s + 1, 0)) 0 rfl

/-- Claim C2: with NDEBUG defined, assert selects the no-op body ((void)0),
and the expression is not evaluated at all: on any instrumented expression
the state and the evaluation counter come back unchanged. -/
theorem assert_ndebug_noop {σ : Type} (env : CompilerEnv) (loc : SourceLoc)
    (etext : String) (e : σ → σ × Int) (s : σ) (n : Nat) :
    assertDefFor true env = .noop ∧
      assertRun true env loc etext (counting e) (s, n) = .ok (s, n) := by
  constructor
  · rfl
  · rfl

/-- Witness for C2 at a concrete side-effecting expression. -/
theorem assert_ndebug_noop_witness :
    assertDefFor true ⟨false, false, true⟩ = .noop ∧
      assertRun true ⟨false, false, true⟩ ⟨"b.c", "b", 3, "f"⟩ "x"
        (counting (fun s : Nat => (s + 5, 1))) (0, 0) = .ok (0, 0) :=
  assert_ndebug_noop ⟨false, false, true⟩ ⟨"b.c", "b", 3, "f"⟩ "x"
    (fun s : Nat => (s + 5, 1)) 0 0

/-- Claim C3: with diagnostics enabled and a true (nonzero) expression,
assert evaluates the expression exactly once (the counter goes from 0 to 1,
the state is exactly the state after one evaluation) and performs no further
action: the result is ok, not a failure. -/
theorem assert_true_evaluates_once {σ : Type} (env : CompilerEnv)
    (loc : SourceLoc) (etext : String) (e : σ → σ × Int) (s : σ)
    (h : (e s).2 ≠ 0) :
    assertRun false env loc etext (counting e) (s, 0) = .ok ((e s).1, 1) := by
  simp [assertRun, counting, h]

/-- Witness for C3 at a concrete true expression. -/
theorem assert_true_evaluates_once_witness :
    assertRun false ⟨true, false, false⟩ ⟨"c.c", "c", 11, "g"⟩ "y"
      (counting (fun s : Nat => (s + 2, 5))) (4, 0) = .ok (6, 1) :=
  assert_true_evaluates_once ⟨true, false, false⟩ ⟨"c.c", "c", 11, "g"⟩ "y"
    (fun s : Nat => (s + 2, 5)) 4 (by decide)

/-- Claim C10: assert.h has no include guard and every inclusion first
undefines assert, so it may be included any number of times with any NDEBUG
settings: after any nonempty sequence of inclusions, from any starting
definition state, the effective definition of assert is exactly the one
selected by the NDEBUG setting of the most recent inclusion. -/
theorem assert_header_reinclusion (env : CompilerEnv)
    (st st2 : Option AssertDef) (incs incs2 : List Bool) (nd : Bool) :
    includeSeq env st (incs ++ [nd]) = some (assertDefFor nd env) ∧
      includeSeq env st (incs ++ [nd]) = includeSeq env st2 (incs2 ++ [nd]) := by
  constructor
  · simp [includeSeq, includeAssertH]
  · simp [includeSeq, includeAssertH]

/-- Witness for C10 on two concrete inclusion histories ending alike. -/
theorem assert_header_reinclusion_witness :
    includeSeq ⟨true, true, true⟩ none ([true, false] ++ [true]) =
        some (assertDefFor true ⟨true, true, true⟩) ∧
      includeSeq ⟨true, true, true⟩ none ([true, false] ++ [true]) =
        includeSeq ⟨true, true, true⟩ (some .checkGnu) ([] ++ [true]) :=
  assert_header_reinclusion ⟨true, true, true⟩ none (some .checkGnu)
    [true, false] [] true

/-- Option and flag constants of fts.h lines 71-82 and 103-132, and the node
classification tags of lines 107-120, as written in the header. -/
def FTS_COMFOLLOW : Nat := 0x001

/-- fts.h line 72. -/
def FTS_LOGICAL : Nat := 0x002

/-- fts.h line 73. -/
def FTS_NOCHDIR : Nat := 0x004

/-- fts.h line 74. -/
def FTS_NOSTAT : Nat := 0x008

/-- fts.h line 75. -/
def FTS_PHYSICAL : Nat := 0x010

/-- fts.h line 76. -/
def FTS_SEEDOT : Nat := 0x020

/-- fts.h line 77. -/
def FTS_XDEV : Nat := 0x040

/-- fts.h line 78. -/
def FTS_WHITEOUT : Nat := 0x080

/-- fts.h line 79: valid user option mask. -/
def FTS_OPTIONMASK : Nat := 0x0ff

/-- fts.h line 81: private, child names only. -/
def FTS_NAMEONLY : Nat := 0x100

/-- fts.h line 82: private, unrecoverable error. -/
def FTS_STOP : Nat := 0x200

/-- fts.h line 103. -/
def FTS_ROOTPARENTLEVEL : Int := -1

/-- fts.h line 104. -/
def FTS_ROOTLEVEL : Int := 0

/-- fts.h lines 107-120: the fts_info node classification tags. -/
def FTS_D : Nat := 1

/-- fts.h line 108: directory that causes cycles. -/
def FTS_DC : Nat := 2

/-- fts.h line 109. -/
def FTS_DEFAULT : Nat := 3

/-- fts.h line 110: unreadable directory. -/
def FTS_DNR : Nat := 4

/-- fts.h line 111: dot or dot-dot. -/
def FTS_DOT : Nat := 5

/-- fts.h line 112: postorder directory. -/
def FTS_DP : Nat := 6

/-- fts.h line 113: error, errno is set. -/
def FTS_ERR : Nat := 7

/-- fts.h line 114: regular file. -/
def FTS_F : Nat := 8

/-- fts.h line 115: initialized only. -/
def FTS_INIT : Nat := 9

/-- fts.h line 116: stat failed. -/
def FTS_NS : Nat := 10

/-- fts.h line 117: no stat requested. -/
def FTS_NSOK : Nat := 11

/-- fts.h line 118: symbolic link. -/
def FTS_SL : Nat := 12

/-- fts.h line 119: symbolic link without target. -/
def FTS_SLNONE : Nat := 13

/-- fts.h line 120: whiteout object. -/
def FTS_W : Nat := 14

/-- A small syntax of the C types appearing in fts.h, with the default
expansions of its type aliases of lines 37-57 (fts_length_t is unsigned
int, fts_number_t is int64_t, fts_level_t is int, and fts_stat_t,
fts_nlink_t, fts_ino_t, fts_dev_t are the system stat, nlink_t, ino_t and
dev_t types). -/
inductive CType where
  | intTy
  | uintTy
  | ushortTy
  | charTy
  | voidTy
  | int64Ty
  | devTy
  | inoTy
  | nlinkTy
  | statTy
  | named : String → CType
  | constQ : CType → CType
  | ptr : CType → CType
  | arr : CType → Nat → CType
  | funPtr2 : CType → CType → CType → CType
deriving DecidableEq

/-- A C object of pointer or function-pointer type may hold a null value.
The funPtr2 constructor stands for a pointer to a two-parameter function,
the only function-pointer shape fts.h uses (the comparator). -/
def CType.nullable : CType → Bool
  | .ptr _ => true
  | .funPtr2 _ _ _ => true
  | _ => false

/-- The fields of the FTS traversal handle struct, fts.h lines 59-84, in
declaration order with their types. -/
def FTS_fields : List (String × CType) :=
  [("fts_cur", .ptr (.named "FTSENT")),
   ("fts_child", .ptr (.named "FTSENT")),
   ("fts_array", .ptr (.ptr (.named "FTSENT"))),
   ("fts_dev", .devTy),
   ("fts_path", .ptr .charTy),
   ("fts_rfd", .intTy),
   ("fts_pathlen", .uintTy),
   ("fts_nitems", .uintTy),
   ("fts_compar",
     .funPtr2 (.ptr (.ptr (.constQ (.named "FTSENT"))))
       (.ptr (.ptr (.constQ (.named "FTSENT")))) .intTy),
   ("fts_options", .intTy)]

/-- The fields of the FTSENT per-entry struct, fts.h lines 86-136, in
declaration order with their types. -/
def FTSENT_fields : List (String × CType) :=
  [("fts_cycle", .ptr (.named "FTSENT")),
   ("fts_parent", .ptr (.named "FTSENT")),
   ("fts_link", .ptr (.named "FTSENT")),
   ("fts_number", .int64Ty),
   ("fts_pointer", .ptr .voidTy),
   ("fts_accpath", .ptr .charTy),
   ("fts_path", .ptr .charTy),
   ("fts_errno", .intTy),
   ("fts_symfd", .intTy),
   ("fts_pathlen", .uintTy),
   ("fts_namelen", .uintTy),
   ("fts_ino", .inoTy),
   ("fts_dev", .devTy),
   ("fts_nlink", .nlinkTy),
   ("fts_level", .intTy),
   ("fts_info", .ushortTy),
   ("fts_flags", .ushortTy),
   ("fts_instr", .ushortTy),
   ("fts_statp", .ptr .statTy),
   ("fts_name", .arr .charTy 1)]

/-- A function declaration of the header: name, parameter types, return
type, and whether a body (definition) accompanies it. -/
structure CDecl where
  name : String
  args : List CType
  ret : CType
  hasBody : Bool
deriving DecidableEq

/-- fts.h lines 140-149: the declarations the header emits.  When
LIBC12_SOURCE is defined the block is skipped and nothing is declared;
otherwise the five prototypes appear, in header order, with no bodies (a
header carries prototypes only). -/
def ftsDecls (libc12Source : Bool) : List CDecl :=
  if libc12Source then []
  else
    [{ name := "fts_children"
       args := [.ptr (.named "FTS"), .intTy]
       ret := .ptr (.named "FTSENT")
       hasBody := false },
     { name := "fts_close"
       args := [.ptr (.named "FTS")]
       ret := .intTy
       hasBody := false },
     { name := "fts_open"
       args := [.ptr (.constQ (.ptr .charTy)), .intTy,
                .funPtr2 (.ptr (.ptr (.constQ (.named "FTSENT"))))
                  (.ptr (.ptr (.constQ (.named "FTSENT")))) .intTy]
       ret := .ptr (.named "FTS")
       hasBody := false },
     { name := "fts_read"
       args := [.ptr (.named "FTS")]
       ret := .ptr (.named "FTSENT")
       hasBody := false },
     { name := "fts_set"
       args := [.ptr (.named "FTS"), .ptr (.named "FTSENT"), .intTy]
       ret := .intTy
       hasBody := false }]

/-- The eight public user option flags of fts.h lines 71-78, in header
order, indexed for quantification over subsets. -/
def userOptionFlags : List Nat :=
  [FTS_COMFOLLOW, FTS_LOGICAL, FTS_NOCHDIR, FTS_NOSTAT,
   FTS_PHYSICAL, FTS_SEEDOT, FTS_XDEV, FTS_WHITEOUT]

/-- The i-th public option flag. -/
def optionFlag (i : Fin 8) : Nat :=
  userOptionFlags.getD i 0

/-- The bitwise OR of the subset of the eight option flags selected by the
low eight bits of a mask. -/
def orSubset (m : Nat) : Nat :=
  (List.finRange 8).foldl
    (fun acc i => if m.testBit i.val then acc ||| optionFlag i else acc) 0

/-- The fourteen fts_info classification tags of fts.h lines 107-120, in
header order. -/
def ftsInfoTags : List Nat :=
  [FTS_D, FTS_DC, FTS_DEFAULT, FTS_DNR, FTS_DOT, FTS_DP, FTS_ERR,
   FTS_F, FTS_INIT, FTS_NS, FTS_NSOK, FTS_SL, FTS_SLNONE, FTS_W]

/-- Claim C4: with LIBC12_SOURCE undefined the header declares exactly the
five entry points fts_children, fts_close, fts_open, fts_read and fts_set,
all as bodiless prototypes; fts_open takes a pointer into an array of path
strings, an int options word and a comparator function pointer over pairs
of FTSENT pointers whose type admits a null value, and returns a pointer to
an FTS handle, which the other four entry points each take as their first
parameter. -/
theorem fts_header_entry_points :
    (ftsDecls false).map CDecl.name =
      ["fts_children", "fts_close", "fts_open", "fts_read", "fts_set"] ∧
    (∀ d ∈ ftsDecls false, d.hasBody = false) ∧
    (∃ d ∈ ftsDecls false, d.name = "fts_open" ∧
      d.args = [.ptr (.constQ (.ptr .charTy)), .intTy,
                .funPtr2 (.ptr (.ptr (.constQ (.named "FTSENT"))))
                  (.ptr (.ptr (.constQ (.named "FTSENT")))) .intTy] ∧
      d.ret = .ptr (.named "FTS") ∧
      (d.args.getD 2 .voidTy).nullable = true) ∧
    (∀ d ∈ ftsDecls false, d.name ≠ "fts_open" →
      d.args.head? = some (.ptr (.named "FTS"))) := by
  decide

/-- Claim C5: every FTSENT entry carries an int fts_errno field, the FTS
handle carries the int fts_options word, and the private flag FTS_STOP has
value 0x200 and lies outside the valid user option mask. -/
theorem ftsent_errno_and_stop_flag :
    ("fts_errno", CType.intTy) ∈ FTSENT_fields ∧
    ("fts_options", CType.intTy) ∈ FTS_fields ∧
    FTS_STOP = 0x200 ∧
    FTS_STOP &&& FTS_OPTIONMASK = 0 := by
  decide

/-- Claim C6: the FTSENT struct carries the per-node data of the OS
contract: inode, device and link count fields, the three path strings with
their recorded lengths, the depth field fts_level whose root-parent and
root constants are -1 and 0, and the node-kind tag fts_info. -/
theorem ftsent_per_node_data :
    ("fts_ino", CType.inoTy) ∈ FTSENT_fields ∧
    ("fts_dev", CType.devTy) ∈ FTSENT_fields ∧
    ("fts_nlink", CType.nlinkTy) ∈ FTSENT_fields ∧
    ("fts_path", CType.ptr .charTy) ∈ FTSENT_fields ∧
    ("fts_accpath", CType.ptr .charTy) ∈ FTSENT_fields ∧
    ("fts_name", CType.arr .charTy 1) ∈ FTSENT_fields ∧
    ("fts_pathlen", CType.uintTy) ∈ FTSENT_fields ∧
    ("fts_namelen", CType.uintTy) ∈ FTSENT_fields ∧
    ("fts_level", CType.intTy) ∈ FTSENT_fields ∧
    ("fts_info", CType.ushortTy) ∈ FTSENT_fields ∧
    FTS_ROOTPARENTLEVEL = -1 ∧
    FTS_ROOTLEVEL = 0 := by
  decide

set_option maxRecDepth 4096 in
/-- Claim C7: each of the eight traversal option flags is a single bit (the
i-th flag in header order is 2 to the i), distinct flags are disjoint as bit
masks, and the bitwise OR of any subset of the flags loses no flag: a flag
tests nonzero against the OR exactly when it was in the subset. -/
theorem fts_option_flags_disjoint :
    (∀ i : Fin 8, optionFlag i = 2 ^ i.val) ∧
    (∀ i j : Fin 8, i ≠ j → optionFlag i &&& optionFlag j = 0) ∧
    (∀ m : Fin 256, ∀ i : Fin 8,
      (orSubset m.val &&& optionFlag i ≠ 0) ↔ m.val.testBit i.val = true) := by
  decide

/-- Claim C8: the valid user option mask 0x0ff is exactly the bitwise OR of
the eight public option flags, and each private flag (FTS_NAMEONLY 0x100 and
FTS_STOP 0x200) meets the mask in the empty bit set, so no private flag can
be set through a valid user options word. -/
theorem fts_optionmask_exact :
    FTS_OPTIONMASK = userOptionFlags.foldl (fun a b => a ||| b) 0 ∧
    FTS_NAMEONLY = 0x100 ∧
    FTS_STOP = 0x200 ∧
    FTS_NAMEONLY &&& FTS_OPTIONMASK = 0 ∧
    FTS_STOP &&& FTS_OPTIONMASK = 0 := by
  decide

/-- Claim C9: the fourteen fts_info classification tags, in header order
FTS_D through FTS_W, take the consecutive values 1 through 14 and are
pairwise distinct. -/
theorem fts_info_tags_consecutive :
    ftsInfoTags = List.range' 1 14 ∧ ftsInfoTags.Nodup := by
  decide
